import Mathlib

/-!
Verification of `SpawnSubprocess` (src/util/posix/spawn_subprocess.cc).

The function forks an intermediate process; the intermediate process runs the
caller-supplied hook, calls `setsid`, then materialises the detached process
through one of three platform-selected spawn strategies and terminates with
`_exit(EXIT_SUCCESS)`; the caller waits once for the intermediate process,
classifies its wait status, and returns.

Shallow embedding: the OS primitives (`fork`, `setsid`, `posix_spawn`,
`execve`, `waitpid`) are nondeterministic at the source level, so their
outcomes are supplied by an `Env` oracle; the embedding is then a pure
function from arguments and oracle to the traces of events each process
performs, the way each process ends, and the boolean result returned to the
caller.
-/

namespace Crashpad

/-- POSIX standard-error descriptor number, as used by the source. -/
def STDERR_FILENO : Nat := 2

/-- `EXIT_SUCCESS` from `<stdlib.h>`. -/
def EXIT_SUCCESS : Nat := 0

/-- The three build-time variants of the spawn strategy in the source:
`BUILDFLAG(IS_ANDROID) && __ANDROID_API__ < 28` (double-fork + exec),
`BUILDFLAG(IS_APPLE)` (posix_spawn with inherit-list file actions), and the
generic POSIX branch (close-loop + posix_spawn). -/
inductive Platform
  | androidOld
  | apple
  | posixOther
deriving Repr, DecidableEq

/-- Modelled from the spec: the raw wait status together with the values of
the external POSIX observer macros `WIFSIGNALED`, `WIFEXITED`, `WTERMSIG`,
`WCOREDUMP` and `WEXITSTATUS` applied to it. These macros are supplied by
libc, not by the repository, so their results are carried as fields. -/
structure WaitStatus where
  ifSignaled : Bool
  ifExited : Bool
  termSig : Nat
  coreDump : Bool
  exitCode : Nat
  raw : Nat
deriving Repr, DecidableEq

/-- How the caller classifies the intermediate process's termination
(spec section 4.5; `WaitFailed` is handled before a status exists and is
therefore not a constructor here). -/
inductive TerminationOutcome
  | exitedSuccess
  | exitedFailure (code : Nat)
  | signaled (sig : Nat) (coreDumped : Bool)
  | unknownTermination (raw : Nat)
deriving Repr, DecidableEq

/-- The caller's classification chain, translated from the source
(spawn_subprocess.cc lines 261–274): `WIFSIGNALED` is tested first, then
`!WIFEXITED`, then a nonzero `WEXITSTATUS`; otherwise the exit was clean. -/
def classifyTermination (s : WaitStatus) : TerminationOutcome :=
  if s.ifSignaled then .signaled s.termSig s.coreDump
  else if !s.ifExited then .unknownTermination s.raw
  else if s.exitCode != EXIT_SUCCESS then .exitedFailure s.exitCode
  else .exitedSuccess

/-- Observable events performed by a process in the embedding. Warnings carry
the data the source interpolates into the log message. -/
inductive Event
  | forkCall
  | hookCall
  | setsidCall
  | closeMultipleCall (lowBound preserved : Nat)
  | spawnCall (prog : Option String)
  | waitCall (pid : Nat)
  | logError (tag : String)
  | warnWaitFailed (errno : Nat)
  | warnSignaled (sig : Nat) (coreDumped : Bool)
  | warnUnknownTermination (raw : Nat)
  | warnExitCode (code : Nat)
deriving Repr, DecidableEq

/-- The warning the caller logs for a classified termination, translated from
the same `if`/`else if` chain: a clean exit logs nothing. -/
def warningEvents : TerminationOutcome → List Event
  | .signaled sig core => [.warnSignaled sig core]
  | .unknownTermination raw => [.warnUnknownTermination raw]
  | .exitedFailure code => [.warnExitCode code]
  | .exitedSuccess => []

/-- How a process leaves `SpawnSubprocess`'s code. `underscoreExit` is
`_exit()`, `normalExit` is `exit()` (never produced by the source),
`returned` is a normal return from the function, `fatalAbort` is a failed
`PCHECK`/`PLOG(FATAL)`, and `imageReplaced` is a successful `exec`. -/
inductive ProcEnd
  | underscoreExit (code : Nat)
  | normalExit (code : Nat)
  | returned
  | fatalAbort (tag : String)
  | imageReplaced (prog : Option String)
deriving Repr, DecidableEq

/-- The arguments of `SpawnSubprocess`. `child_function` records whether the
function-pointer argument is non-null; `preserve_fd` is a descriptor number
(non-negative in every use). -/
structure SpawnArgs where
  argv : List String
  envp : Option (List String)
  preserve_fd : Nat
  use_path : Bool
  child_function : Bool
deriving Repr, DecidableEq

/-- Oracle for the outcomes of the OS primitives in one invocation:
whether each fallible call fails, the pid the first fork reports to the
caller, the `waitpid` result (`Except.error errno` models a `-1` return),
and the ambient `environ` vector. -/
structure Env where
  forkFails : Bool
  childPid : Nat
  setsidFails : Bool
  fork2Fails : Bool
  spawnErrno : Nat
  execFails : Bool
  waitResult : Except Nat WaitStatus
  environ : List (Option String)
deriving Repr

/-- Translation of the `argv_c`/`envp_c` construction loops: push a pointer
for each string in order, then push `nullptr` (modelled as `none`). -/
def buildCVector (xs : List String) : List (Option String) :=
  (xs.foldl (fun acc s => acc ++ [some s]) []) ++ [none]

/-- The inherit list built in the `IS_APPLE` branch: a loop adds descriptors
`0` through `STDERR_FILENO`, then `preserve_fd` is added
(spawn_subprocess.cc lines 208–212). -/
def appleInheritList (preserve_fd : Nat) : List Nat :=
  (List.range (STDERR_FILENO + 1)) ++ [preserve_fd]

/-- Modelled from the spec: `CloseMultipleNowOrOnExec(lowBound, preserved)`
(util/posix/close_multiple.cc, outside src/) closes, or marks close-on-exec,
every descriptor at or above `lowBound` except `preserved`; this predicate
says which descriptors survive it. -/
def closeMultipleSurvives (lowBound preserved fd : Nat) : Bool :=
  fd < lowBound || fd == preserved

/-- Modelled from the spec: with `POSIX_SPAWN_CLOEXEC_DEFAULT` set, a
descriptor is open in the spawned process exactly when it is named in the
file-actions inherit list. -/
def declarativeSurvives (preserve_fd fd : Nat) : Bool :=
  (appleInheritList preserve_fd).contains fd

/-- The descriptor set arranged by the imperative variants: the source calls
`CloseMultipleNowOrOnExec(STDERR_FILENO + 1, preserve_fd)`. -/
def imperativeSurvives (preserve_fd fd : Nat) : Bool :=
  closeMultipleSurvives (STDERR_FILENO + 1) preserve_fd fd

/-- Trace of the extra process forked inside the intermediate process on the
`androidOld` variant (the process that execs the target). -/
structure GrandchildRun where
  events : List Event
  theEnd : ProcEnd
  spawnedEnvp : Option (List (Option String))
deriving Repr, DecidableEq

/-- Trace of the intermediate process: its events, how it ends, the inherit
list it builds (apple branch only), the environment vector it hands to the
spawn primitive (if it reaches that call), and the extra child's trace
(androidOld branch only). -/
structure IntermediateRun where
  events : List Event
  theEnd : ProcEnd
  inheritList : Option (List Nat)
  spawnedEnvp : Option (List (Option String))
  grandchild : Option GrandchildRun
deriving Repr, DecidableEq

/-- The intermediate process's code path (`pid == 0` branch of the source):
optional hook, `setsid` under `PCHECK`, then the platform spawn strategy
followed by `_exit(EXIT_SUCCESS)`. -/
def runIntermediate (plat : Platform) (args : SpawnArgs) (env : Env) :
    IntermediateRun :=
  let hookEvents : List Event := if args.child_function then [.hookCall] else []
  let argv_c := buildCVector args.argv
  let argv0 : Option String := argv_c.headI
  let envp_c : List (Option String) :=
    match args.envp with
    | some l => buildCVector l
    | none => []
  let envp_for_spawn : List (Option String) :=
    match args.envp with
    | some _ => envp_c
    | none => env.environ
  if env.setsidFails then
    { events := hookEvents ++ [.setsidCall]
      theEnd := .fatalAbort "setsid"
      inheritList := none
      spawnedEnvp := none
      grandchild := none }
  else
    match plat with
    | .androidOld =>
      if env.fork2Fails then
        { events := hookEvents ++ [.setsidCall, .forkCall]
          theEnd := .fatalAbort "fork"
          inheritList := none
          spawnedEnvp := none
          grandchild := none }
      else
        let gcEvents : List Event :=
          [.closeMultipleCall (STDERR_FILENO + 1) args.preserve_fd,
           .spawnCall argv0]
        let gc : GrandchildRun :=
          if env.execFails then
            { events := gcEvents
              theEnd := .fatalAbort (if args.use_path then "execvpe" else "execve")
              spawnedEnvp := some envp_for_spawn }
          else
            { events := gcEvents
              theEnd := .imageReplaced argv0
              spawnedEnvp := some envp_for_spawn }
        { events := hookEvents ++ [.setsidCall, .forkCall]
          theEnd := .underscoreExit EXIT_SUCCESS
          inheritList := none
          spawnedEnvp := none
          grandchild := some gc }
    | .apple =>
      if env.spawnErrno != 0 then
        { events := hookEvents ++ [.setsidCall, .spawnCall argv0]
          theEnd := .fatalAbort (if args.use_path then "posix_spawnp" else "posix_spawn")
          inheritList := some (appleInheritList args.preserve_fd)
          spawnedEnvp := some envp_for_spawn
          grandchild := none }
      else
        { events := hookEvents ++ [.setsidCall, .spawnCall argv0]
          theEnd := .underscoreExit EXIT_SUCCESS
          inheritList := some (appleInheritList args.preserve_fd)
          spawnedEnvp := some envp_for_spawn
          grandchild := none }
    | .posixOther =>
      let evs : List Event :=
        hookEvents ++
          [.setsidCall,
           .closeMultipleCall (STDERR_FILENO + 1) args.preserve_fd,
           .spawnCall argv0]
      if env.spawnErrno != 0 then
        { events := evs
          theEnd := .fatalAbort (if args.use_path then "posix_spawnp" else "posix_spawn")
          inheritList := none
          spawnedEnvp := some envp_for_spawn
          grandchild := none }
      else
        { events := evs
          theEnd := .underscoreExit EXIT_SUCCESS
          inheritList := none
          spawnedEnvp := some envp_for_spawn
          grandchild := none }

/-- The caller's trace and the boolean it returns. -/
structure CallerRun where
  events : List Event
  result : Bool
deriving Repr, DecidableEq

/-- Overall outcome of one invocation: the caller's run, and the intermediate
process's run when the first fork succeeded. -/
structure SpawnOutcome where
  caller : CallerRun
  intermediate : Option IntermediateRun
deriving Repr, DecidableEq

/-- Translation of `SpawnSubprocess`: the first fork either fails
(`PLOG(ERROR)`, `return false`) or yields the intermediate process; the
caller then calls `waitpid` on that pid under `HANDLE_EINTR`, and every
branch of the status handling returns `true` (lines 253–276). -/
def SpawnSubprocess (plat : Platform) (args : SpawnArgs) (env : Env) :
    SpawnOutcome :=
  if env.forkFails then
    { caller := { events := [.forkCall, .logError "fork"], result := false }
      intermediate := none }
  else
    let interm := runIntermediate plat args env
    match env.waitResult with
    | .error e =>
      { caller :=
          { events := [.forkCall, .waitCall env.childPid, .warnWaitFailed e]
            result := true }
        intermediate := some interm }
    | .ok status =>
      { caller :=
          { events :=
              .forkCall :: .waitCall env.childPid ::
                warningEvents (classifyTermination status)
            result := true }
        intermediate := some interm }

/-- Whether an event is a `waitpid` call. -/
def Event.isWait : Event → Bool
  | .waitCall _ => true
  | _ => false

/-- `buildCVector` is the original list, each entry wrapped, with a final
`nullptr`: the copy is in order and null-terminated. -/
theorem buildCVector_eq (xs : List String) :
    buildCVector xs = xs.map some ++ [none] := by
  have h : ∀ (xs : List String) (acc : List (Option String)),
      xs.foldl (fun acc s => acc ++ [some s]) acc = acc ++ xs.map some := by
    intro xs
    induction xs with
    | nil => intro acc; simp
    | cons x xs ih =>
      intro acc
      simp [List.foldl, ih, List.append_assoc]
  simp [buildCVector, h]

/-- C1: the boolean result of `SpawnSubprocess` is false exactly when the
initial fork fails; once that fork has succeeded the function returns true
for every later outcome (wait failure, signaled termination, nonzero exit
code, or unknown status shape), since the environment — including the wait
result — is universally quantified. -/
theorem spawn_result_iff_fork_ok (plat : Platform) (args : SpawnArgs)
    (env : Env) :
    (SpawnSubprocess plat args env).caller.result = !env.forkFails := by
  unfold SpawnSubprocess
  cases h : env.forkFails with
  | true => simp
  | false => cases env.waitResult <;> simp

/-- C4: the termination classifier, following the source's test order
(signaled first, then non-exit, then nonzero exit code), sends a signaled
status to a warning carrying the signal number and core-dump flag, a status
that is neither signaled nor exited to an unknown-termination warning with
the raw status, a nonzero normal exit to a warning with the code, and a
clean exit to no warning at all. -/
theorem classifyTermination_cases (s : WaitStatus) :
    (s.ifSignaled = true →
      classifyTermination s = .signaled s.termSig s.coreDump ∧
      warningEvents (classifyTermination s) =
        [.warnSignaled s.termSig s.coreDump]) ∧
    (s.ifSignaled = false → s.ifExited = false →
      classifyTermination s = .unknownTermination s.raw ∧
      warningEvents (classifyTermination s) = [.warnUnknownTermination s.raw]) ∧
    (s.ifSignaled = false → s.ifExited = true → s.exitCode ≠ EXIT_SUCCESS →
      classifyTermination s = .exitedFailure s.exitCode ∧
      warningEvents (classifyTermination s) = [.warnExitCode s.exitCode]) ∧
    (s.ifSignaled = false → s.ifExited = true → s.exitCode = EXIT_SUCCESS →
      classifyTermination s = .exitedSuccess ∧
      warningEvents (classifyTermination s) = []) := by
  refine ⟨?_, ?_, ?_, ?_⟩ <;> intro hsig
  · simp [classifyTermination, hsig, warningEvents]
  all_goals intro hex
  · simp [classifyTermination, hsig, hex, warningEvents]
  all_goals intro hcode
  · simp [classifyTermination, hsig, hex, hcode, warningEvents]
  · simp [classifyTermination, hsig, hex, hcode, warningEvents]

/-- Witness for C4 at the concrete status of a SIGKILL'd process. -/
theorem classifyTermination_cases_witness :
    classifyTermination ⟨true, false, 9, true, 0, 137⟩ =
      .signaled 9 true ∧
    warningEvents (classifyTermination ⟨true, false, 9, true, 0, 137⟩) =
      [.warnSignaled 9 true] :=
  (classifyTermination_cases ⟨true, false, 9, true, 0, 137⟩).1 rfl

/-- C6: whenever the wait call fails — for every errno, not only
no-such-process — the caller logs the waitpid warning and `SpawnSubprocess`
still returns true. -/
theorem wait_failure_still_true (plat : Platform) (args : SpawnArgs)
    (env : Env) (e : Nat) (hf : env.forkFails = false)
    (hw : env.waitResult = .error e) :
    (SpawnSubprocess plat args env).caller.result = true ∧
    Event.warnWaitFailed e ∈ (SpawnSubprocess plat args env).caller.events := by
  unfold SpawnSubprocess
  simp [hf, hw]

/-- Witness for C6: wait failing with `EINVAL` (errno 22). -/
theorem wait_failure_still_true_witness :
    (SpawnSubprocess .posixOther
        ⟨["/bin/handler"], none, 7, false, false⟩
        ⟨false, 100, false, false, 0, false, .error 22, []⟩).caller.result =
      true ∧
    Event.warnWaitFailed 22 ∈
      (SpawnSubprocess .posixOther
        ⟨["/bin/handler"], none, 7, false, false⟩
        ⟨false, 100, false, false, 0, false, .error 22, []⟩).caller.events :=
  wait_failure_still_true .posixOther
    ⟨["/bin/handler"], none, 7, false, false⟩
    ⟨false, 100, false, false, 0, false, .error 22, []⟩ 22 rfl rfl

/-- C9: when the initial fork succeeds, the caller's trace contains exactly
one wait call and it targets the intermediate process's pid; when the fork
fails, the caller never waits. No other wait exists anywhere in the caller,
so the detached grandchild is never waited on. -/
theorem caller_waits_once (plat : Platform) (args : SpawnArgs) (env : Env) :
    (env.forkFails = false →
      (SpawnSubprocess plat args env).caller.events.filter Event.isWait =
        [.waitCall env.childPid]) ∧
    (env.forkFails = true →
      (SpawnSubprocess plat args env).caller.events.filter Event.isWait =
        []) := by
  constructor <;> intro hf <;> unfold SpawnSubprocess
  · cases hw : env.waitResult with
    | error e => simp [hf, hw, Event.isWait]
    | ok status =>
      simp only [hf, hw]
      simp only [Bool.false_eq_true, if_false]
      cases h : classifyTermination status <;>
        simp [warningEvents, Event.isWait, List.filter]
  · simp [hf, Event.isWait]

/-- Witness for C9 at a concrete invocation whose intermediate pid is 4242. -/
theorem caller_waits_once_witness :
    (SpawnSubprocess .apple ⟨["/bin/handler"], none, 5, true, true⟩
        ⟨false, 4242, false, false, 0, false,
          .ok ⟨false, true, 0, false, 0, 0⟩, []⟩).caller.events.filter
        Event.isWait =
      [.waitCall 4242] :=
  (caller_waits_once .apple ⟨["/bin/handler"], none, 5, true, true⟩
      ⟨false, 4242, false, false, 0, false,
        .ok ⟨false, true, 0, false, 0, 0⟩, []⟩).1 rfl

/-- The apple inherit list written out: the loop adds 0, 1 and 2, then
`preserve_fd` is appended. -/
theorem appleInheritList_eq (p : Nat) : appleInheritList p = [0, 1, 2, p] := by
  have h : List.range (STDERR_FILENO + 1) = [0, 1, 2] := by decide
  simp [appleInheritList, h]

/-- C2: the declarative variant (inherit list naming 0, 1, 2 and
`preserve_fd`, close-on-exec the default for unlisted descriptors) and the
imperative variant (`CloseMultipleNowOrOnExec(STDERR_FILENO + 1,
preserve_fd)`) agree on every descriptor, and the common surviving set is
exactly {0, 1, 2, preserve_fd}; the intermediate process really installs
these policies: the apple branch records the inherit list and the generic
branch performs the close call. -/
theorem fd_policies_agree (args : SpawnArgs) (env : Env)
    (hs : env.setsidFails = false) :
    (runIntermediate .apple args env).inheritList =
      some (appleInheritList args.preserve_fd) ∧
    Event.closeMultipleCall (STDERR_FILENO + 1) args.preserve_fd ∈
      (runIntermediate .posixOther args env).events ∧
    ∀ fd, declarativeSurvives args.preserve_fd fd =
            imperativeSurvives args.preserve_fd fd ∧
          (declarativeSurvives args.preserve_fd fd = true ↔
            (fd = 0 ∨ fd = 1 ∨ fd = 2 ∨ fd = args.preserve_fd)) := by
  refine ⟨?_, ?_, ?_⟩
  · unfold runIntermediate
    by_cases h : env.spawnErrno != 0 <;> simp [hs, h]
  · unfold runIntermediate
    by_cases h : env.spawnErrno != 0 <;> simp [hs, h]
  · intro fd
    constructor
    · rw [Bool.eq_iff_iff]
      simp [declarativeSurvives, imperativeSurvives, closeMultipleSurvives,
        appleInheritList_eq, STDERR_FILENO, List.contains]
      omega
    · simp [declarativeSurvives, appleInheritList_eq, List.contains]

/-- Witness for C2 with `preserve_fd = 9`, evaluating the descriptor
equivalence at descriptor 4. -/
theorem fd_policies_agree_witness :
    (runIntermediate .apple ⟨["/bin/handler"], none, 9, false, false⟩
        ⟨false, 1, false, false, 0, false,
          .ok ⟨false, true, 0, false, 0, 0⟩, []⟩).inheritList =
      some (appleInheritList 9) ∧
    Event.closeMultipleCall (STDERR_FILENO + 1) 9 ∈
      (runIntermediate .posixOther ⟨["/bin/handler"], none, 9, false, false⟩
        ⟨false, 1, false, false, 0, false,
          .ok ⟨false, true, 0, false, 0, 0⟩, []⟩).events ∧
    declarativeSurvives 9 4 = imperativeSurvives 9 4 :=
  ⟨(fd_policies_agree ⟨["/bin/handler"], none, 9, false, false⟩
      ⟨false, 1, false, false, 0, false,
        .ok ⟨false, true, 0, false, 0, 0⟩, []⟩ rfl).1,
   (fd_policies_agree ⟨["/bin/handler"], none, 9, false, false⟩
      ⟨false, 1, false, false, 0, false,
        .ok ⟨false, true, 0, false, 0, 0⟩, []⟩ rfl).2.1,
   ((fd_policies_agree ⟨["/bin/handler"], none, 9, false, false⟩
      ⟨false, 1, false, false, 0, false,
        .ok ⟨false, true, 0, false, 0, 0⟩, []⟩ rfl).2.2 4).1⟩

/-- C10: when the preserved descriptor is one of the standard streams 0, 1
or 2, both enforcement mechanisms arrange exactly the descriptor set
{0, 1, 2}: the declarative inherit list simply names the descriptor a second
time (count 2), and the imperative close call, which starts at descriptor 3,
never touches it. -/
theorem preserve_standard_fd (p fd : Nat) (hp : p ≤ 2) :
    (appleInheritList p).count p = 2 ∧
    declarativeSurvives p fd = decide (fd < 3) ∧
    imperativeSurvives p fd = decide (fd < 3) := by
  refine ⟨?_, ?_, ?_⟩
  · rw [appleInheritList_eq]
    interval_cases p <;> decide
  · rw [Bool.eq_iff_iff]
    simp [declarativeSurvives, appleInheritList_eq, List.contains]
    omega
  · rw [Bool.eq_iff_iff]
    simp [imperativeSurvives, closeMultipleSurvives, STDERR_FILENO]
    omega

/-- Witness for C10: preserving standard output (descriptor 1), probed at
descriptor 7. -/
theorem preserve_standard_fd_witness :
    (appleInheritList 1).count 1 = 2 ∧
    declarativeSurvives 1 7 = decide (7 < 3) ∧
    imperativeSurvives 1 7 = decide (7 < 3) :=
  preserve_standard_fd 1 7 (by decide)

/-- C5: when the spawn/exec primitive fails, the process performing the
image replacement ends in a fatal abort (`PLOG(FATAL)`) on every variant —
it never returns normally — while `SpawnSubprocess` in the caller still
returns true for every platform; the failure surfaces only through the
caller's status classification. -/
theorem spawn_failure_fatal (args : SpawnArgs) (env : Env)
    (hs : env.setsidFails = false) (he : env.spawnErrno ≠ 0)
    (hx : env.execFails = true) (h2 : env.fork2Fails = false) :
    (runIntermediate .apple args env).theEnd =
      .fatalAbort (if args.use_path then "posix_spawnp" else "posix_spawn") ∧
    (runIntermediate .posixOther args env).theEnd =
      .fatalAbort (if args.use_path then "posix_spawnp" else "posix_spawn") ∧
    ((runIntermediate .androidOld args env).grandchild.map
        GrandchildRun.theEnd) =
      some (.fatalAbort (if args.use_path then "execvpe" else "execve")) ∧
    (env.forkFails = false →
      ∀ plat, (SpawnSubprocess plat args env).caller.result = true) := by
  refine ⟨?_, ?_, ?_, ?_⟩
  · unfold runIntermediate
    simp [hs, he]
  · unfold runIntermediate
    simp [hs, he]
  · unfold runIntermediate
    simp [hs, h2, hx]
  · intro hf plat
    have := spawn_result_iff_fork_ok plat args env
    rw [this, hf]
    rfl

/-- Witness for C5: argv names a nonexistent binary with path search
disabled; the spawn primitive reports `ENOENT` (2) and the exec primitive
returns. -/
theorem spawn_failure_fatal_witness :
    (runIntermediate .posixOther ⟨["/nonexistent/binary"], none, 3, false, false⟩
        ⟨false, 50, false, false, 2, true,
          .ok ⟨true, false, 6, false, 0, 134⟩, []⟩).theEnd =
      .fatalAbort "posix_spawn" ∧
    (SpawnSubprocess .posixOther ⟨["/nonexistent/binary"], none, 3, false, false⟩
        ⟨false, 50, false, false, 2, true,
          .ok ⟨true, false, 6, false, 0, 134⟩, []⟩).caller.result = true :=
  ⟨(spawn_failure_fatal ⟨["/nonexistent/binary"], none, 3, false, false⟩
      ⟨false, 50, false, false, 2, true,
        .ok ⟨true, false, 6, false, 0, 134⟩, []⟩ rfl (by decide) rfl rfl).2.1,
   (spawn_failure_fatal ⟨["/nonexistent/binary"], none, 3, false, false⟩
      ⟨false, 50, false, false, 2, true,
        .ok ⟨true, false, 6, false, 0, 134⟩, []⟩ rfl (by decide) rfl
          rfl).2.2.2 rfl .posixOther⟩

/-- C7: the environment vector handed to the spawn or exec primitive is
exactly the supplied list, copied in order and null-terminated, when an
explicit environment is given, and the ambient `environ` otherwise — on all
three variants. -/
theorem envp_handoff (args : SpawnArgs) (env : Env)
    (hs : env.setsidFails = false) (h2 : env.fork2Fails = false) :
    (runIntermediate .apple args env).spawnedEnvp =
      some (args.envp.elim env.environ (fun l => l.map some ++ [none])) ∧
    (runIntermediate .posixOther args env).spawnedEnvp =
      some (args.envp.elim env.environ (fun l => l.map some ++ [none])) ∧
    ((runIntermediate .androidOld args env).grandchild.map
        GrandchildRun.spawnedEnvp) =
      some (some (args.envp.elim env.environ
        (fun l => l.map some ++ [none]))) := by
  have henv : (match args.envp with
      | some l => buildCVector l
      | none => env.environ : List (Option String)) =
      args.envp.elim env.environ (fun l => l.map some ++ [none]) := by
    cases args.envp with
    | none => rfl
    | some l => simp [buildCVector_eq]
  refine ⟨?_, ?_, ?_⟩ <;> unfold runIntermediate
  · by_cases h : env.spawnErrno != 0 <;>
      simp [hs, h, buildCVector_eq, Option.elim] <;>
      cases args.envp <;> simp
  · by_cases h : env.spawnErrno != 0 <;>
      simp [hs, h, buildCVector_eq, Option.elim] <;>
      cases args.envp <;> simp
  · by_cases h : env.execFails <;>
      simp [hs, h2, h, buildCVector_eq, Option.elim] <;>
      cases args.envp <;> simp

/-- Witness for C7 with an explicit two-variable environment. -/
theorem envp_handoff_witness :
    (runIntermediate .apple
        ⟨["/bin/handler"], some ["A=1", "B=2"], 6, false, false⟩
        ⟨false, 1, false, false, 0, false,
          .ok ⟨false, true, 0, false, 0, 0⟩,
          [some "C=3", none]⟩).spawnedEnvp =
      some ((some ["A=1", "B=2"] : Option (List String)).elim
        [some "C=3", none] (fun l => l.map some ++ [none])) :=
  (envp_handoff ⟨["/bin/handler"], some ["A=1", "B=2"], 6, false, false⟩
      ⟨false, 1, false, false, 0, false,
        .ok ⟨false, true, 0, false, 0, 0⟩,
        [some "C=3", none]⟩ rfl rfl).1

/-- C8: once its spawn step has succeeded, the intermediate process ends via
`_exit(EXIT_SUCCESS)` on all three variants (on the double-fork variant this
is the process that performed the extra fork), never via the normal exit
path and never by returning from `SpawnSubprocess`. -/
theorem spawn_success_underscore_exit (args : SpawnArgs) (env : Env)
    (hs : env.setsidFails = false) (he : env.spawnErrno = 0)
    (h2 : env.fork2Fails = false) :
    (runIntermediate .apple args env).theEnd =
      .underscoreExit EXIT_SUCCESS ∧
    (runIntermediate .posixOther args env).theEnd =
      .underscoreExit EXIT_SUCCESS ∧
    (runIntermediate .androidOld args env).theEnd =
      .underscoreExit EXIT_SUCCESS := by
  refine ⟨?_, ?_, ?_⟩ <;> unfold runIntermediate
  · simp [hs, he]
  · simp [hs, he]
  · by_cases h : env.execFails <;> simp [hs, h2, h]

/-- Witness for C8 at a fully successful invocation. -/
theorem spawn_success_underscore_exit_witness :
    (runIntermediate .apple ⟨["/bin/handler"], none, 4, true, true⟩
        ⟨false, 77, false, false, 0, false,
          .ok ⟨false, true, 0, false, 0, 0⟩, []⟩).theEnd =
      .underscoreExit EXIT_SUCCESS :=
  (spawn_success_underscore_exit ⟨["/bin/handler"], none, 4, true, true⟩
      ⟨false, 77, false, false, 0, false,
        .ok ⟨false, true, 0, false, 0, 0⟩, []⟩ rfl rfl rfl).1

@[simp]
theorem beq_hookCall_setsidCall : (Event.hookCall == Event.setsidCall) = false := rfl

@[simp]
theorem beq_setsidCall_hookCall : (Event.setsidCall == Event.hookCall) = false := rfl

@[simp]
theorem beq_hookCall_forkCall : (Event.hookCall == Event.forkCall) = false := rfl

@[simp]
theorem beq_forkCall_hookCall : (Event.forkCall == Event.hookCall) = false := rfl

@[simp]
theorem beq_setsidCall_forkCall : (Event.setsidCall == Event.forkCall) = false := rfl

@[simp]
theorem beq_forkCall_setsidCall : (Event.forkCall == Event.setsidCall) = false := rfl

@[simp]
theorem beq_hookCall_spawnCall (b : Option String) :
    (Event.hookCall == Event.spawnCall b) = false := rfl

@[simp]
theorem beq_spawnCall_hookCall (b : Option String) :
    (Event.spawnCall b == Event.hookCall) = false := rfl

@[simp]
theorem beq_setsidCall_spawnCall (b : Option String) :
    (Event.setsidCall == Event.spawnCall b) = false := rfl

@[simp]
theorem beq_spawnCall_setsidCall (b : Option String) :
    (Event.spawnCall b == Event.setsidCall) = false := rfl

@[simp]
theorem beq_forkCall_spawnCall (b : Option String) :
    (Event.forkCall == Event.spawnCall b) = false := rfl

@[simp]
theorem beq_spawnCall_forkCall (b : Option String) :
    (Event.spawnCall b == Event.forkCall) = false := rfl

@[simp]
theorem beq_closeMultipleCall_hookCall (lb p : Nat) :
    (Event.closeMultipleCall lb p == Event.hookCall) = false := rfl

@[simp]
theorem beq_hookCall_closeMultipleCall (lb p : Nat) :
    (Event.hookCall == Event.closeMultipleCall lb p) = false := rfl

@[simp]
theorem beq_closeMultipleCall_setsidCall (lb p : Nat) :
    (Event.closeMultipleCall lb p == Event.setsidCall) = false := rfl

@[simp]
theorem beq_setsidCall_closeMultipleCall (lb p : Nat) :
    (Event.setsidCall == Event.closeMultipleCall lb p) = false := rfl

@[simp]
theorem beq_closeMultipleCall_forkCall (lb p : Nat) :
    (Event.closeMultipleCall lb p == Event.forkCall) = false := rfl

@[simp]
theorem beq_closeMultipleCall_spawnCall (lb p : Nat) (b : Option String) :
    (Event.closeMultipleCall lb p == Event.spawnCall b) = false := rfl

/-- The caller's per-outcome warnings never contain a hook invocation. -/
theorem warningEvents_count_hookCall (t : TerminationOutcome) :
    (warningEvents t).count Event.hookCall = 0 := by
  cases t <;> rfl

set_option maxHeartbeats 1600000 in
/-- C3: the hook runs only in the intermediate process — exactly once when
supplied, not at all otherwise, and never in the caller or in the process
that execs the detached program — and it runs strictly before `setsid`,
which in turn runs strictly before the spawn call and before the extra fork
of the double-fork variant. -/
theorem hook_order (plat : Platform) (args : SpawnArgs) (env : Env)
    (run : IntermediateRun)
    (hr : (SpawnSubprocess plat args env).intermediate = some run) :
    (SpawnSubprocess plat args env).caller.events.count Event.hookCall = 0 ∧
    run.events.count Event.hookCall = (if args.child_function then 1 else 0) ∧
    run.events.count Event.setsidCall = 1 ∧
    (args.child_function = true →
      run.events.indexOf Event.hookCall <
        run.events.indexOf Event.setsidCall) ∧
    (∀ prog, Event.spawnCall prog ∈ run.events →
      run.events.indexOf Event.setsidCall <
        run.events.indexOf (Event.spawnCall prog)) ∧
    (Event.forkCall ∈ run.events →
      run.events.indexOf Event.setsidCall <
        run.events.indexOf Event.forkCall) ∧
    (∀ gc, run.grandchild = some gc →
      gc.events.count Event.hookCall = 0) := by
  cases hf : env.forkFails with
  | true =>
    unfold SpawnSubprocess at hr
    simp [hf] at hr
  | false =>
    have hrun : run = runIntermediate plat args env := by
      unfold SpawnSubprocess at hr
      cases hw : env.waitResult <;> simp [hf, hw] at hr <;> exact hr.symm
    subst hrun
    have hcaller :
        (SpawnSubprocess plat args env).caller.events.count Event.hookCall =
          0 := by
      unfold SpawnSubprocess
      cases hw : env.waitResult <;>
        simp [hf, hw, List.count_cons, warningEvents_count_hookCall]
    refine ⟨hcaller, ?_⟩
    unfold runIntermediate
    cases plat with
    | androidOld =>
      by_cases hcf : args.child_function <;>
        cases hsid : env.setsidFails <;>
        by_cases h2 : env.fork2Fails <;>
        by_cases hx : env.execFails <;>
        refine ⟨?_, ?_, ?_, ?_, ?_, ?_⟩ <;>
        simp_all [List.count_cons, List.indexOf, List.findIdx,
          List.findIdx.go]
    | apple =>
      by_cases hcf : args.child_function <;>
        cases hsid : env.setsidFails <;>
        by_cases hsp : env.spawnErrno != 0 <;>
        refine ⟨?_, ?_, ?_, ?_, ?_, ?_⟩ <;>
        simp_all [List.count_cons, List.indexOf, List.findIdx,
          List.findIdx.go]
    | posixOther =>
      by_cases hcf : args.child_function <;>
        cases hsid : env.setsidFails <;>
        by_cases hsp : env.spawnErrno != 0 <;>
        refine ⟨?_, ?_, ?_, ?_, ?_, ?_⟩ <;>
        simp_all [List.count_cons, List.indexOf, List.findIdx,
          List.findIdx.go]

/-- Witness for C3: a successful apple invocation with a hook; the hook's
index precedes `setsid`'s in the intermediate trace. -/
theorem hook_order_witness :
    (runIntermediate .apple ⟨["/bin/handler"], none, 5, false, true⟩
        ⟨false, 12, false, false, 0, false,
          .ok ⟨false, true, 0, false, 0, 0⟩, []⟩).events.indexOf
        Event.hookCall <
      (runIntermediate .apple ⟨["/bin/handler"], none, 5, false, true⟩
        ⟨false, 12, false, false, 0, false,
          .ok ⟨false, true, 0, false, 0, 0⟩, []⟩).events.indexOf
        Event.setsidCall :=
  (hook_order .apple ⟨["/bin/handler"], none, 5, false, true⟩
      ⟨false, 12, false, false, 0, false,
        .ok ⟨false, true, 0, false, 0, 0⟩, []⟩
      (runIntermediate .apple ⟨["/bin/handler"], none, 5, false, true⟩
        ⟨false, 12, false, false, 0, false,
          .ok ⟨false, true, 0, false, 0, 0⟩, []⟩) rfl).2.2.2.1 rfl

end Crashpad
